import Mathlib

set_option maxHeartbeats 1000000

/- Verification development for the build orchestrator `bin/build_wasm.ts` of
kaito-http/llhttp.  The script is shallowly embedded: every external effect
(subprocess execution, filesystem access, environment reads) is mediated by a
`World` of oracles, and an invocation is the pure function `run`, returning the
process outcome, the ordered trace of external operations, and the final value
of the module-level `config` object.  Shell command strings are represented as
their whitespace-separated token lists. -/

namespace BuildWasm

/-- Source constant `OPTIMIZATION_LEVEL = 3` (line 5). -/
def OPTIMIZATION_LEVEL : Nat := 3

/-- Source constant `WASM_MEMORY_SIZE = 16 * 1024 * 1024` (line 6). -/
def WASM_MEMORY_SIZE : Nat := 16 * 1024 * 1024

/-- Source constant `STACK_SIZE = 2 * 1024 * 1024` (line 7). -/
def STACK_SIZE : Nat := 2 * 1024 * 1024

/-- Source constant `GLOBAL_BASE = 4 * 1024 * 1024` (line 8). -/
def GLOBAL_BASE : Nat := 4 * 1024 * 1024

/-- `path.join` of two segments, as used on the simple absolute segments here. -/
def join (a b : String) : String := a ++ "/" ++ b

/-- A JavaScript error value, as far as the script inspects one: an optional
`code` property (filesystem errors) or the `status` of a failed subprocess. -/
inductive JsError where
  | fsError (code : Option String)
  | subprocess (status : Nat)
deriving DecidableEq, Repr

/-- The `code` property of an error, `none` when the property is absent. -/
def JsError.code? : JsError → Option String
  | .fsError c => c
  | .subprocess _ => none

/-- Embeds the type guard `isErrorWithCode` (lines 165-167): true iff the
error value has a `code` property. -/
def isErrorWithCode (e : JsError) : Bool := e.code?.isSome

/-- Result of an `execSync` call: captured stdout on success, or the exit
status of the failed subprocess (execSync throws in that case). -/
inductive ExecResult where
  | ok (stdout : String)
  | err (status : Nat)
deriving DecidableEq, Repr

/-- One observable external operation performed by the script, in order. -/
inductive Event where
  | queryDockerInfo
  | log (msg : String)
  | execCmd (cmd : List String) (cwd : Option String)
  | checkExists (path : String) (result : Bool)
  | mkdir (path : String)
  | copyFile (src : String) (dst : String)
  | writeFile (path : String) (content : String)
deriving DecidableEq, Repr

/-- The environment of one invocation: environment variables, argv, process
identity, and oracles giving the outcome of each external operation. -/
structure World where
  /-- `process.env.WASM_PLATFORM`, `none` when unset. -/
  wasmPlatform : Option String
  /-- `process.argv[2]`, `none` when absent. -/
  argv2 : Option String
  /-- the repository root, i.e. `resolve(dirname, '../')` for the script. -/
  root : String
  /-- `process.platform`. -/
  hostPlatform : String
  /-- `process.getuid()`. -/
  uid : Nat
  /-- `process.getegid()`. -/
  egid : Nat
  /-- outcome of `execSync('docker info -f ...')` (output captured). -/
  dockerInfo : ExecResult
  /-- outcome of each inherited-stdio `execSync`, keyed by command tokens. -/
  execResult : List String → ExecResult
  /-- `existsSync`. -/
  existsSync : String → Bool
  /-- outcome of `mkdirSync` on a path: `none` on success, else the error. -/
  mkdirError : String → Option JsError
  /-- outcome of `copyFileSync src dst`: `none` on success, else the error. -/
  copyError : String → String → Option JsError
  /-- outcome of `writeFileSync path`: `none` on success, else the error. -/
  writeError : String → Option JsError

/-- The `BuildConfig` interface (lines 10-15). -/
structure BuildConfig where
  platform : String
  wasmOut : String
  wasmSrc : String
  emflags : String
deriving DecidableEq, Repr

/-- The `emflags` flag list (lines 21-42), before the `join(' ')`. -/
def emflagsList : List String :=
  ["-O3",
   "-fno-rtti",
   "-fno-exceptions",
   "-flto",
   "-ffast-math",
   "-fomit-frame-pointer",
   "-finline-functions",
   "-finline-hint-functions",
   "-fno-stack-protector",
   "-fforce-emit-vtables",
   "--param=max-inline-insns-single=1000",
   "--param=max-inline-insns-auto=1000",
   "--param=early-inlining-insns=1000",
   "--param=max-early-inliner-iterations=10",
   "-Wl,--no-entry",
   "-Wl,-O3",
   "-Wl,--lto-O3",
   "-Wl,-z,stack-size=" ++ toString STACK_SIZE,
   "-Wl,--initial-memory=" ++ toString WASM_MEMORY_SIZE,
   "-Wl,--max-memory=" ++ toString WASM_MEMORY_SIZE]

/-- The module-level `config` object literal (lines 17-43), before the
platform-resolution guard runs. -/
def mkConfig (w : World) : BuildConfig :=
  { platform := w.wasmPlatform.getD ""
    wasmOut := join w.root "build/wasm"
    wasmSrc := w.root
    emflags := String.intercalate " " emflagsList }

/-- JavaScript truthiness of `process.argv[2]`: present and non-empty. -/
def jsTruthy : Option String → Bool
  | none => false
  | some s => s != ""

/-- The platform-resolution guard (lines 45-47): when `config.platform` is
falsy and `argv[2]` is truthy, shell out to `docker info` and overwrite
`config.platform` with the trimmed output; an execSync failure propagates. -/
def resolvePlatform (w : World) (cfg : BuildConfig) :
    BuildConfig × List Event × Option JsError :=
  if cfg.platform == "" && jsTruthy w.argv2 then
    match w.dockerInfo with
    | .ok out => ({ cfg with platform := out.trim }, [Event.queryDockerInfo], none)
    | .err s => (cfg, [Event.queryDockerInfo], some (.subprocess s))
  else (cfg, [], none)

/-- Sequencing of two effectful steps: the second runs only when the first
did not throw; events accumulate in order. -/
def andThen (r : List Event × Option JsError) (k : Unit → List Event × Option JsError) :
    List Event × Option JsError :=
  match r with
  | (evs, none) => ((evs ++ (k ()).1), (k ()).2)
  | (evs, some e) => (evs, some e)

/-- An inherited-stdio `execSync cmd` call. -/
def execStep (w : World) (cmd : List String) (cwd : Option String) :
    List Event × Option JsError :=
  match w.execResult cmd with
  | .ok _ => ([Event.execCmd cmd cwd], none)
  | .err s => ([Event.execCmd cmd cwd], some (.subprocess s))

/-- `ensureDirectoryExists` (lines 49-53). -/
def ensureDirectoryExists (w : World) (path : String) : List Event × Option JsError :=
  if w.existsSync path then ([Event.checkExists path true], none)
  else
    match w.mkdirError path with
    | none => ([Event.checkExists path false, Event.mkdir path], none)
    | some e => ([Event.checkExists path false], some e)

/-- The uid passed to `docker run --user` (line 56):
`process.platform === 'linux' ? process.getuid() : 1000`. -/
def dockerRunUid (w : World) : Nat :=
  if w.hostPlatform = "linux" then w.uid else 1000

/-- The gid passed to `docker run --user` (line 57):
`process.platform === 'linux' ? process.getegid() : 1000`. -/
def dockerRunGid (w : World) : Nat :=
  if w.hostPlatform = "linux" then w.egid else 1000

/-- The `docker run` command of `runDockerBuild` (lines 59-66), tokenized. -/
def dockerRunParts (w : World) (platform wasmSrc : String) : List String :=
  ["docker", "run", "--rm",
   "--platform=" ++ platform,
   "--user", toString (dockerRunUid w) ++ ":" ++ toString (dockerRunGid w),
   "--mount",
   "type=bind,source=" ++ wasmSrc ++ "/build,target=/home/node/llhttp/build",
   "llhttp_wasm_builder", "npm", "run", "wasm"]

/-- `runDockerBuild` (lines 55-73): a single foreground `docker run` with the
working directory set to the source root (DOCKER_BUILDKIT=1 in the
environment, not an observable operation of its own). -/
def runDockerBuild (w : World) (platform wasmSrc : String) :
    List Event × Option JsError :=
  execStep w (dockerRunParts w platform wasmSrc) (some wasmSrc)

/-- The fixed flags of the clang command before `config.emflags` (lines 77-90). -/
def clangPre : List String :=
  ["--sysroot=/usr/share/wasi-sysroot",
   "-target", "wasm32-unknown-wasi",
   "-Ofast",
   "-fno-exceptions",
   "-fvisibility=hidden",
   "-mexec-model=reactor",
   "-msimd128",
   "-mbulk-memory",
   "-mmultivalue",
   "-mnontrapping-fptoint",
   "-msign-ext",
   "-mreference-types",
   "-mtail-call"]

/-- The explicit flags of the clang command after `config.emflags`
(lines 92-107), up to the output option. -/
def clangPost (cfg : BuildConfig) : List String :=
  ["-Wl,-error-limit=0",
   "-Wl,-O" ++ toString OPTIMIZATION_LEVEL,
   "-Wl,--lto-O" ++ toString OPTIMIZATION_LEVEL,
   "-Wl,--allow-undefined",
   "-Wl,--export-dynamic",
   "-Wl,--export-table",
   "-Wl,--export=malloc",
   "-Wl,--export=free",
   "-Wl,--no-entry",
   "-Wl,--import-memory",
   "-Wl,--max-memory=" ++ toString WASM_MEMORY_SIZE,
   "-Wl,--global-base=" ++ toString GLOBAL_BASE,
   "-Wl,--stack-first",
   join (join cfg.wasmSrc "build") "c" ++ "/*.c",
   join (join cfg.wasmSrc "src") "native" ++ "/*.c",
   "-I" ++ join cfg.wasmSrc "build"]

/-- The full tokenized `clangCmd` of `buildWasm` (lines 76-109); the template
string joins these tokens with whitespace.  The interpolated `config.emflags`
string contributes its space-separated tokens in place. -/
def clangCmdTokens (cfg : BuildConfig) : List String :=
  "clang" ::
    (clangPre ++ cfg.emflags.splitOn " " ++ clangPost cfg ++
      ["-o", join cfg.wasmOut "llhttp.wasm"])

/-- `buildWasm` (lines 75-112): one synchronous foreground compiler command. -/
def buildWasm (w : World) (cfg : BuildConfig) : List Event × Option JsError :=
  execStep w (clangCmdTokens cfg) none

/-- The six companion files copied by `copyAssets` (lines 115-120), in call
order. -/
def companionFiles : List String :=
  ["constants.js", "constants.js.map", "constants.d.ts",
   "utils.js", "utils.js.map", "utils.d.ts"]

/-- `join(config.wasmSrc, 'lib', 'llhttp')`, the asset source directory. -/
def assetSrcDir (cfg : BuildConfig) : String := join (join cfg.wasmSrc "lib") "llhttp"

/-- Content of `JSON.stringify(\x7b type: 'commonjs' \x7d, null, 2)` (line 122). -/
def packageJsonContent : String := "\x7b\n  \"type\": \"commonjs\"\n\x7d"

/-- One `copyFileSync(join(wasmSrc, 'lib', 'llhttp', name), join(wasmOut, name))`. -/
def copyOne (w : World) (cfg : BuildConfig) (name : String) :
    List Event × Option JsError :=
  match w.copyError (join (assetSrcDir cfg) name) (join cfg.wasmOut name) with
  | none => ([Event.copyFile (join (assetSrcDir cfg) name) (join cfg.wasmOut name)], none)
  | some e => ([], some e)

/-- The successive copy calls of `copyAssets`, stopping at the first error. -/
def copyAll (w : World) (cfg : BuildConfig) : List String → List Event × Option JsError
  | [] => ([], none)
  | n :: ns => andThen (copyOne w cfg n) (fun _ => copyAll w cfg ns)

/-- `copyAssets` (lines 114-124): six copies, then the descriptor write. -/
def copyAssets (w : World) (cfg : BuildConfig) : List Event × Option JsError :=
  andThen (copyAll w cfg companionFiles) (fun _ =>
    match w.writeError (join cfg.wasmOut "package.json") with
    | none => ([Event.writeFile (join cfg.wasmOut "package.json") packageJsonContent], none)
    | some e => ([], some e))

/-- The `docker build` command of the `--prebuild` case (line 130), tokenized. -/
def dockerBuildCmd (platform : String) : List String :=
  ["docker", "build", "--platform=" ++ platform, "-t", "llhttp_wasm_builder", "."]

/-- The four mutually exclusive states of the mode dispatcher. -/
inductive Mode where
  | prebuild
  | setup
  | docker
  | localDefault
deriving DecidableEq, Repr

/-- The `switch (arg)` selection (lines 126-163): the three recognized literal
arguments, everything else (absent or unrecognized) falling to `default`. -/
def dispatchMode (arg : Option String) : Mode :=
  if arg = some "--prebuild" then .prebuild
  else if arg = some "--setup" then .setup
  else if arg = some "--docker" then .docker
  else .localDefault

/-- How the process ends: an explicit `process.exit`, normal completion of the
script (exit status 0), or termination by an unhandled thrown error. -/
inductive Outcome where
  | exited (code : Nat)
  | completed
  | fatal (e : JsError)
deriving DecidableEq, Repr

/-- The `--setup` case (lines 137-148): ensure `join(wasmSrc, 'build')`
exists, exit 0; in the catch, rethrow only errors that have a `code` property
different from EEXIST, otherwise exit 0. -/
def setupCase (w : World) (cfg : BuildConfig) : Outcome × List Event :=
  match ensureDirectoryExists w (join cfg.wasmSrc "build") with
  | (evs, none) => (.exited 0, evs)
  | (evs, some e) =>
    if isErrorWithCode e && (e.code? != some "EEXIST") then (.fatal e, evs)
    else (.exited 0, evs)

/-- The `default` case (lines 156-162): ensure the output directory, run the
source generator, compile, copy assets, in that order, failing fast. -/
def defaultCase (w : World) (cfg : BuildConfig) : List Event × Option JsError :=
  andThen (ensureDirectoryExists w cfg.wasmOut) (fun _ =>
    andThen (execStep w ["npm", "run", "build"] (some cfg.wasmSrc)) (fun _ =>
      andThen (buildWasm w cfg) (fun _ =>
        copyAssets w cfg)))

/-- The observable result of one whole invocation of the script. -/
structure RunResult where
  outcome : Outcome
  events : List Event
  /-- The final value of the module-level `config` object. -/
  config : BuildConfig
deriving Repr

/-- One whole invocation of `bin/build_wasm.ts`: build the config object,
run the platform-resolution guard, then dispatch on `argv[2]`. -/
def run (w : World) : RunResult :=
  match resolvePlatform w (mkConfig w) with
  | (cfg, evs, some e) => ⟨.fatal e, evs, cfg⟩
  | (cfg, evs, none) =>
    match dispatchMode w.argv2 with
    | .prebuild =>
      let cmd := dockerBuildCmd cfg.platform
      let logEv := Event.log ("> " ++ String.intercalate " " cmd ++ "\n")
      match w.execResult cmd with
      | .ok _ => ⟨.exited 0, evs ++ [logEv, Event.execCmd cmd none], cfg⟩
      | .err s => ⟨.fatal (.subprocess s), evs ++ [logEv, Event.execCmd cmd none], cfg⟩
    | .setup =>
      match setupCase w cfg with
      | (o, evs2) => ⟨o, evs ++ evs2, cfg⟩
    | .docker =>
      match runDockerBuild w cfg.platform cfg.wasmSrc with
      | (evs2, none) => ⟨.exited 0, evs ++ evs2, cfg⟩
      | (evs2, some e) => ⟨.fatal e, evs ++ evs2, cfg⟩
    | .localDefault =>
      match defaultCase w cfg with
      | (evs2, none) => ⟨.completed, evs ++ evs2, cfg⟩
      | (evs2, some e) => ⟨.fatal e, evs ++ evs2, cfg⟩

/-- Whether an event is the execution of a container command. -/
def isDockerEvent : Event → Bool
  | .queryDockerInfo => true
  | .execCmd cmd _ => cmd.head? == some "docker"
  | _ => false

/-- A platform string names a POSIX operating system (the values of
`process.platform` for POSIX hosts). -/
def isPosixPlatform (p : String) : Bool :=
  p ∈ ["aix", "darwin", "freebsd", "linux", "openbsd", "sunos"]

/-- Elements of the post-emflags explicit flag block are clang command tokens. -/
theorem mem_clangTokens_of_mem_post {cfg : BuildConfig} {x : String}
    (h : x ∈ clangPost cfg) : x ∈ clangCmdTokens cfg := by
  unfold clangCmdTokens
  exact List.mem_cons_of_mem _
    (List.mem_append_left _ (List.mem_append_right _ h))

/-- A baseline environment in which every external operation succeeds. -/
def okWorld : World :=
  { wasmPlatform := none
    argv2 := none
    root := "/r"
    hostPlatform := "linux"
    uid := 501
    egid := 20
    dockerInfo := .ok "linux/amd64\n"
    execResult := fun _ => .ok ""
    existsSync := fun _ => false
    mkdirError := fun _ => none
    copyError := fun _ _ => none
    writeError := fun _ => none }

/-- Claim C1: the toolchain flag string always contains an initial-memory
flag and a max-memory flag whose values both equal the configured 16 MiB
linear-memory constant and a stack-size flag equal to the configured 2 MiB
stack constant, and the flags passed explicitly in the compiler invocation
agree with it on the 16 MiB max linear-memory size and reserve the global
base at the configured 4 MiB offset. -/
theorem toolchain_memory_flags_agree :
    ("-Wl,--initial-memory=" ++ toString WASM_MEMORY_SIZE) ∈ emflagsList ∧
    ("-Wl,--max-memory=" ++ toString WASM_MEMORY_SIZE) ∈ emflagsList ∧
    ("-Wl,-z,stack-size=" ++ toString STACK_SIZE) ∈ emflagsList ∧
    WASM_MEMORY_SIZE = 16 * 1024 * 1024 ∧
    STACK_SIZE = 2 * 1024 * 1024 ∧
    GLOBAL_BASE = 4 * 1024 * 1024 ∧
    (∀ w : World, (mkConfig w).emflags = String.intercalate " " emflagsList) ∧
    ∀ cfg : BuildConfig,
      ("-Wl,--max-memory=" ++ toString WASM_MEMORY_SIZE) ∈ clangCmdTokens cfg ∧
      ("-Wl,--global-base=" ++ toString GLOBAL_BASE) ∈ clangCmdTokens cfg := by
  refine ⟨by decide, by decide, by decide, rfl, rfl, rfl, fun w => rfl,
    fun cfg => ⟨?_, ?_⟩⟩ <;>
    · apply mem_clangTokens_of_mem_post
      unfold clangPost
      repeat first | exact List.Mem.head _ | apply List.Mem.tail

/-- Claim C2: for every build configuration, the single compiler/linker
command constructed by the native compiler driver declares no program entry
point, imports its linear memory rather than defining it, places the stack
first in the address space, explicitly exports the allocate and free entry
points and the dynamic call table, allows otherwise-undefined symbols to
remain unresolved, and writes the single resulting binary to the fixed
filename llhttp.wasm inside the output directory. -/
theorem clang_command_contract (w : World) (cfg : BuildConfig) :
    (buildWasm w cfg).1 = [Event.execCmd (clangCmdTokens cfg) none] ∧
    "-Wl,--no-entry" ∈ clangCmdTokens cfg ∧
    "-Wl,--import-memory" ∈ clangCmdTokens cfg ∧
    "-Wl,--stack-first" ∈ clangCmdTokens cfg ∧
    "-Wl,--export=malloc" ∈ clangCmdTokens cfg ∧
    "-Wl,--export=free" ∈ clangCmdTokens cfg ∧
    "-Wl,--export-table" ∈ clangCmdTokens cfg ∧
    "-Wl,--export-dynamic" ∈ clangCmdTokens cfg ∧
    "-Wl,--allow-undefined" ∈ clangCmdTokens cfg ∧
    ∃ front, clangCmdTokens cfg = front ++ ["-o", join cfg.wasmOut "llhttp.wasm"] := by
  refine ⟨?_, ?_, ?_, ?_, ?_, ?_, ?_, ?_, ?_,
    ⟨"clang" :: (clangPre ++ cfg.emflags.splitOn " " ++ clangPost cfg), rfl⟩⟩
  · unfold buildWasm execStep
    cases hE : w.execResult (clangCmdTokens cfg) <;> rfl
  all_goals
    · apply mem_clangTokens_of_mem_post
      unfold clangPost
      repeat first | exact List.Mem.head _ | apply List.Mem.tail

/-- Decomposition of membership in a sequenced step's trace. -/
theorem mem_andThen {e : Event} {r : List Event × Option JsError}
    {k : Unit → List Event × Option JsError}
    (h : e ∈ (andThen r k).1) : e ∈ r.1 ∨ e ∈ (k ()).1 := by
  rcases r with ⟨evs, e?⟩
  cases e? with
  | none =>
    unfold andThen at h
    exact List.mem_append.mp h
  | some x =>
    exact Or.inl h

/-- An exec step records exactly its one command, whether it succeeds or not. -/
theorem execStep_events (w : World) (cmd : List String) (cwd : Option String) :
    (execStep w cmd cwd).1 = [Event.execCmd cmd cwd] := by
  unfold execStep
  cases w.execResult cmd <;> rfl

/-- The directory ensurer only checks existence and creates the directory. -/
theorem ensure_mem {w : World} {p : String} {e : Event}
    (h : e ∈ (ensureDirectoryExists w p).1) :
    e = Event.checkExists p true ∨ e = Event.checkExists p false ∨ e = Event.mkdir p := by
  unfold ensureDirectoryExists at h
  split at h
  · simp only [List.mem_singleton] at h
    exact Or.inl h
  · split at h
    · simp only [List.mem_cons, List.not_mem_nil, or_false] at h
      rcases h with h | h
      · exact Or.inr (Or.inl h)
      · exact Or.inr (Or.inr h)
    · simp only [List.mem_singleton] at h
      exact Or.inr (Or.inl h)

/-- A single copy step records only its own copy event. -/
theorem copyOne_mem {w : World} {cfg : BuildConfig} {n : String} {e : Event}
    (h : e ∈ (copyOne w cfg n).1) :
    e = Event.copyFile (join (assetSrcDir cfg) n) (join cfg.wasmOut n) := by
  unfold copyOne at h
  split at h
  · simp only [List.mem_singleton] at h
    exact h
  · exact absurd h (List.not_mem_nil e)

/-- The copy loop only records copy events for names of its list. -/
theorem copyAll_mem {w : World} {cfg : BuildConfig} {e : Event} :
    ∀ {ns : List String}, e ∈ (copyAll w cfg ns).1 →
      ∃ n ∈ ns, e = Event.copyFile (join (assetSrcDir cfg) n) (join cfg.wasmOut n) := by
  intro ns
  induction ns with
  | nil => intro h; exact absurd h (List.not_mem_nil e)
  | cons n ns ih =>
    intro h
    rcases mem_andThen h with h1 | h2
    · exact ⟨n, List.mem_cons_self n ns, copyOne_mem h1⟩
    · rcases ih h2 with ⟨m, hm, he⟩
      exact ⟨m, List.mem_cons_of_mem n hm, he⟩

/-- The asset assembler only records companion-file copies and the one
descriptor write. -/
theorem copyAssets_mem {w : World} {cfg : BuildConfig} {e : Event}
    (h : e ∈ (copyAssets w cfg).1) :
    (∃ n ∈ companionFiles,
        e = Event.copyFile (join (assetSrcDir cfg) n) (join cfg.wasmOut n)) ∨
      e = Event.writeFile (join cfg.wasmOut "package.json") packageJsonContent := by
  unfold copyAssets at h
  rcases mem_andThen h with h1 | h2
  · exact Or.inl (copyAll_mem h1)
  · right
    split at h2
    · simp only [List.mem_singleton] at h2
      exact h2
    · exact absurd h2 (List.not_mem_nil e)

/-- The shapes of the events of the local/default pipeline. -/
theorem defaultCase_mem {w : World} {cfg : BuildConfig} {e : Event}
    (h : e ∈ (defaultCase w cfg).1) :
    (e = Event.checkExists cfg.wasmOut true ∨ e = Event.checkExists cfg.wasmOut false ∨
        e = Event.mkdir cfg.wasmOut) ∨
      e = Event.execCmd ["npm", "run", "build"] (some cfg.wasmSrc) ∨
      e = Event.execCmd (clangCmdTokens cfg) none ∨
      (∃ n ∈ companionFiles,
        e = Event.copyFile (join (assetSrcDir cfg) n) (join cfg.wasmOut n)) ∨
      e = Event.writeFile (join cfg.wasmOut "package.json") packageJsonContent := by
  unfold defaultCase at h
  rcases mem_andThen h with h1 | h
  · exact Or.inl (ensure_mem h1)
  rcases mem_andThen h with h1 | h
  · rw [execStep_events] at h1
    simp only [List.mem_singleton] at h1
    exact Or.inr (Or.inl h1)
  rcases mem_andThen h with h1 | h
  · unfold buildWasm at h1
    rw [execStep_events] at h1
    simp only [List.mem_singleton] at h1
    exact Or.inr (Or.inr (Or.inl h1))
  · exact Or.inr (Or.inr (Or.inr (copyAssets_mem h)))

/-- A world in which the setup-mode directory creation fails with an error
value having no `code` property. -/
def setupCodelessWorld : World :=
  { okWorld with
    wasmPlatform := some "linux/amd64"
    argv2 := some "--setup"
    mkdirError := fun _ => some (.fsError none) }

/-- Claim C3 counterexample: in setup mode a directory-creation failure whose
error value lacks a `code` property is not re-raised; the process exits 0,
though the failure is not an already-exists outcome. -/
theorem setup_swallows_codeless_error :
    (run setupCodelessWorld).outcome = Outcome.exited 0 ∧
    setupCodelessWorld.mkdirError
        (join (mkConfig setupCodelessWorld).wasmSrc "build") = some (JsError.fsError none) ∧
    (JsError.fsError none).code? ≠ some "EEXIST" := by
  refine ⟨by decide, rfl, by decide⟩

/-- Claim C3 as amended: setup mode treats an existing directory and an
EEXIST failure as success (exit 0); a directory-creation failure whose error
carries a `code` property other than EEXIST is re-raised; a failure whose
error has no `code` property is also treated as success (exit 0). -/
theorem setup_error_handling (w : World) (cfg : BuildConfig) :
    (w.existsSync (join cfg.wasmSrc "build") = true →
      setupCase w cfg =
        (Outcome.exited 0, [Event.checkExists (join cfg.wasmSrc "build") true])) ∧
    (w.existsSync (join cfg.wasmSrc "build") = false →
      (w.mkdirError (join cfg.wasmSrc "build") = none →
        (setupCase w cfg).1 = Outcome.exited 0) ∧
      (∀ e c, w.mkdirError (join cfg.wasmSrc "build") = some e → e.code? = some c →
        c ≠ "EEXIST" → (setupCase w cfg).1 = Outcome.fatal e) ∧
      (∀ e, w.mkdirError (join cfg.wasmSrc "build") = some e →
        (e.code? = none ∨ e.code? = some "EEXIST") →
        (setupCase w cfg).1 = Outcome.exited 0)) := by
  constructor
  · intro h
    simp [setupCase, ensureDirectoryExists, h]
  · intro h
    refine ⟨?_, ?_, ?_⟩
    · intro hm
      simp [setupCase, ensureDirectoryExists, h, hm]
    · intro e c hm he hc
      have hb : (isErrorWithCode e && (e.code? != some "EEXIST")) = true := by
        simp [isErrorWithCode, he, hc]
      simp [setupCase, ensureDirectoryExists, h, hm, hb]
    · intro e hm hcode
      have hb : (isErrorWithCode e && (e.code? != some "EEXIST")) = false := by
        rcases hcode with hc | hc <;> simp [isErrorWithCode, hc]
      simp [setupCase, ensureDirectoryExists, h, hm, hb]

/-- A world in which the setup-mode directory creation fails with EACCES. -/
def setupFailWorld : World :=
  { okWorld with
    argv2 := some "--setup"
    mkdirError := fun _ => some (.fsError (some "EACCES")) }

/-- Witness for the amended claim C3 at a concrete world: an EACCES failure
of the directory creation is re-raised. -/
theorem setup_error_handling_witness :
    (setupCase setupFailWorld (mkConfig setupFailWorld)).1
      = Outcome.fatal (JsError.fsError (some "EACCES")) :=
  ((setup_error_handling setupFailWorld (mkConfig setupFailWorld)).2 rfl).2.1
    (JsError.fsError (some "EACCES")) "EACCES" rfl rfl (by decide)

/-- When the guard condition is falsy, the platform-resolution step is a
no-op: no query, no error, config untouched. -/
theorem resolvePlatform_not_taken {w : World} {cfg : BuildConfig}
    (h : (cfg.platform == "" && jsTruthy w.argv2) = false) :
    resolvePlatform w cfg = (cfg, [], none) := by
  simp [resolvePlatform, h]

/-- When the guard condition is truthy and the query succeeds, resolution
overwrites the platform field with the trimmed output. -/
theorem resolvePlatform_taken_ok {w : World} {cfg : BuildConfig} {out : String}
    (h : (cfg.platform == "" && jsTruthy w.argv2) = true)
    (ho : w.dockerInfo = .ok out) :
    resolvePlatform w cfg =
      ({ cfg with platform := out.trim }, [Event.queryDockerInfo], none) := by
  simp [resolvePlatform, h, ho]

/-- When the guard condition is truthy and the query fails, its error
propagates out of the resolution step. -/
theorem resolvePlatform_taken_err {w : World} {cfg : BuildConfig} {s : Nat}
    (h : (cfg.platform == "" && jsTruthy w.argv2) = true)
    (he : w.dockerInfo = .err s) :
    resolvePlatform w cfg = (cfg, [Event.queryDockerInfo], some (.subprocess s)) := by
  simp [resolvePlatform, h, he]

/-- The setup case records exactly the directory-ensurer events. -/
theorem setupCase_events (w : World) (cfg : BuildConfig) :
    (setupCase w cfg).2 = (ensureDirectoryExists w (join cfg.wasmSrc "build")).1 := by
  unfold setupCase
  split
  · rename_i evs heq
    rw [heq]
  · rename_i evs e heq
    split <;> rw [heq]

/-- The containerized pipeline records exactly its one docker run command. -/
theorem runDockerBuild_events (w : World) (platform wasmSrc : String) :
    (runDockerBuild w platform wasmSrc).1 =
      [Event.execCmd (dockerRunParts w platform wasmSrc) (some wasmSrc)] :=
  execStep_events w _ _

/-- Characterization of a run that skips resolution and dispatches to the
local/default pipeline. -/
theorem run_default {w : World}
    (hmode : dispatchMode w.argv2 = Mode.localDefault)
    (hskip : ((mkConfig w).platform == "" && jsTruthy w.argv2) = false) :
    run w =
      ⟨(match (defaultCase w (mkConfig w)).2 with
          | none => Outcome.completed
          | some e => Outcome.fatal e),
        (defaultCase w (mkConfig w)).1, mkConfig w⟩ := by
  unfold run
  rw [resolvePlatform_not_taken hskip, hmode]
  rcases hD : defaultCase w (mkConfig w) with ⟨evs, e?⟩
  cases e? <;> simp [hD]

/-- Characterization of a run that skips resolution and dispatches to the
image-build mode. -/
theorem run_prebuild {w : World}
    (hmode : dispatchMode w.argv2 = Mode.prebuild)
    (hskip : ((mkConfig w).platform == "" && jsTruthy w.argv2) = false) :
    run w =
      ⟨(match w.execResult (dockerBuildCmd (mkConfig w).platform) with
          | .ok _ => Outcome.exited 0
          | .err s => Outcome.fatal (.subprocess s)),
        [Event.log ("> " ++
            String.intercalate " " (dockerBuildCmd (mkConfig w).platform) ++ "\n"),
          Event.execCmd (dockerBuildCmd (mkConfig w).platform) none],
        mkConfig w⟩ := by
  unfold run
  rw [resolvePlatform_not_taken hskip, hmode]
  cases hE : w.execResult (dockerBuildCmd (mkConfig w).platform) <;> simp [hE]

/-- Characterization of a run that skips resolution and dispatches to setup
mode. -/
theorem run_setup {w : World}
    (hmode : dispatchMode w.argv2 = Mode.setup)
    (hskip : ((mkConfig w).platform == "" && jsTruthy w.argv2) = false) :
    run w =
      ⟨(setupCase w (mkConfig w)).1, (setupCase w (mkConfig w)).2, mkConfig w⟩ := by
  unfold run
  rw [resolvePlatform_not_taken hskip, hmode]
  rcases hS : setupCase w (mkConfig w) with ⟨o, evs⟩
  simp [hS]

/-- Characterization of a run that skips resolution and dispatches to the
containerized mode. -/
theorem run_docker {w : World}
    (hmode : dispatchMode w.argv2 = Mode.docker)
    (hskip : ((mkConfig w).platform == "" && jsTruthy w.argv2) = false) :
    run w =
      ⟨(match (runDockerBuild w (mkConfig w).platform (mkConfig w).wasmSrc).2 with
          | none => Outcome.exited 0
          | some e => Outcome.fatal e),
        (runDockerBuild w (mkConfig w).platform (mkConfig w).wasmSrc).1,
        mkConfig w⟩ := by
  unfold run
  rw [resolvePlatform_not_taken hskip, hmode]
  rcases hR : runDockerBuild w (mkConfig w).platform (mkConfig w).wasmSrc with ⟨evs, e?⟩
  cases e? <;> simp [hR]

/-- The trace of a whole run extends the resolution-step trace. -/
theorem run_events_split (w : World) :
    ∃ rest, (run w).events = (resolvePlatform w (mkConfig w)).2.1 ++ rest := by
  unfold run
  rcases hR : resolvePlatform w (mkConfig w) with ⟨cfg, evs, e?⟩
  cases e? with
  | some e =>
    refine ⟨[], ?_⟩
    simp [hR]
  | none =>
    cases hm : dispatchMode w.argv2
    case prebuild =>
      cases hE : w.execResult (dockerBuildCmd cfg.platform) <;>
        · refine ⟨[Event.log ("> " ++
              String.intercalate " " (dockerBuildCmd cfg.platform) ++ "\n"),
            Event.execCmd (dockerBuildCmd cfg.platform) none], ?_⟩
          simp [hR, hm, hE]
    case setup =>
      refine ⟨(setupCase w cfg).2, ?_⟩
      rcases hS : setupCase w cfg with ⟨o, evs2⟩
      simp [hR, hm, hS]
    case docker =>
      rcases hD : runDockerBuild w cfg.platform cfg.wasmSrc with ⟨evs2, e2?⟩
      cases e2? <;>
        · refine ⟨evs2, ?_⟩
          simp [hR, hm, hD]
    case localDefault =>
      rcases hD : defaultCase w cfg with ⟨evs2, e2?⟩
      cases e2? <;>
        · refine ⟨evs2, ?_⟩
          simp [hR, hm, hD]

/-- Whenever the resolution guard is truthy, the trace of the whole run
contains the container-runtime info query. -/
theorem run_query_mem {w : World}
    (hg : ((mkConfig w).platform == "" && jsTruthy w.argv2) = true) :
    Event.queryDockerInfo ∈ (run w).events := by
  obtain ⟨rest, hsplit⟩ := run_events_split w
  rw [hsplit]
  have hres : (resolvePlatform w (mkConfig w)).2.1 = [Event.queryDockerInfo] := by
    cases hd : w.dockerInfo with
    | ok out => rw [resolvePlatform_taken_ok hg hd]
    | err s => rw [resolvePlatform_taken_err hg hd]
  rw [hres]
  simp

/-- The local/default pipeline never performs the info query. -/
theorem query_not_mem_default (w : World) (cfg : BuildConfig) :
    Event.queryDockerInfo ∉ (defaultCase w cfg).1 := by
  intro h
  rcases defaultCase_mem h with (h | h | h) | h | h | ⟨n, _, h⟩ | h <;>
    exact Event.noConfusion h

/-- Claim C7 as amended: the container-runtime info query is invoked exactly
when the platform field resolved from the environment override is empty and
a non-empty mode argument is present; in particular a non-empty override
suppresses it, and an absent or empty mode argument skips resolution. -/
theorem docker_info_query_iff (w : World) :
    Event.queryDockerInfo ∈ (run w).events ↔
      (w.wasmPlatform.getD "" = "" ∧ jsTruthy w.argv2 = true) := by
  by_cases hg : ((mkConfig w).platform == "" && jsTruthy w.argv2) = true
  · have h12 := hg
    rw [Bool.and_eq_true] at h12
    obtain ⟨h1, h2⟩ := h12
    have hp : w.wasmPlatform.getD "" = "" := by
      have : (mkConfig w).platform = "" := beq_iff_eq.mp h1
      exact this
    exact ⟨fun _ => ⟨hp, h2⟩, fun _ => run_query_mem hg⟩
  · have hg' : ((mkConfig w).platform == "" && jsTruthy w.argv2) = false :=
      Bool.eq_false_iff.mpr hg
    constructor
    · intro hmem
      exfalso
      cases hm : dispatchMode w.argv2 with
      | prebuild =>
        rw [run_prebuild hm hg'] at hmem
        simp only [List.mem_cons, List.not_mem_nil, or_false] at hmem
        rcases hmem with h | h <;> exact Event.noConfusion h
      | setup =>
        rw [run_setup hm hg'] at hmem
        rw [setupCase_events] at hmem
        rcases ensure_mem hmem with h | h | h <;> exact Event.noConfusion h
      | docker =>
        rw [run_docker hm hg'] at hmem
        rw [runDockerBuild_events] at hmem
        simp only [List.mem_singleton] at hmem
        exact Event.noConfusion hmem
      | localDefault =>
        rw [run_default hm hg'] at hmem
        exact query_not_mem_default w (mkConfig w) hmem
    · intro ⟨hp, ht⟩
      exfalso
      apply hg
      have : (mkConfig w).platform = "" := hp
      simp [this, ht]

/-- A world whose platform override is set to the empty string while a mode
argument is present. -/
def emptyOverrideWorld : World :=
  { okWorld with
    wasmPlatform := some ""
    argv2 := some "--docker" }

/-- Claim C7 counterexample: with the platform override environment variable
set (to the empty string) and a mode argument present, the container-runtime
info query is still invoked; and with no override but an empty-string mode
argument present, it is not invoked. -/
theorem empty_override_still_queries :
    emptyOverrideWorld.wasmPlatform = some "" ∧
    Event.queryDockerInfo ∈ (run emptyOverrideWorld).events ∧
    ({ okWorld with argv2 := some "" } : World).argv2 = some "" ∧
    Event.queryDockerInfo ∉ (run { okWorld with argv2 := some "" }).events := by
  refine ⟨rfl, by decide, rfl, by decide⟩

/-- No event of the local/default pipeline is a container command. -/
theorem defaultCase_no_docker (w : World) (cfg : BuildConfig) :
    ∀ e ∈ (defaultCase w cfg).1, isDockerEvent e = false := by
  intro e h
  rcases defaultCase_mem h with (h | h | h) | h | h | ⟨n, _, h⟩ | h <;> subst h <;>
    simp [isDockerEvent, clangCmdTokens]

/-- The local/default pipeline reads nothing of the world but its oracles:
the platform override field is irrelevant to it. -/
theorem defaultCase_wasmPlatform_irrel (w : World) (p : Option String) (cfg : BuildConfig) :
    defaultCase { w with wasmPlatform := p } cfg = defaultCase w cfg := rfl

/-- The local/default pipeline never reads the platform field of the config. -/
theorem defaultCase_platform_irrel (w : World) (cfg : BuildConfig) (p : String) :
    defaultCase w { cfg with platform := p } = defaultCase w cfg := rfl

/-- A world with the platform override set but no mode argument. -/
def overrideNoArgWorld : World :=
  { okWorld with wasmPlatform := some "linux/amd64" }

/-- Claim C10 counterexample: with no mode argument but the override set, the
local/default path runs with the platform field equal to the override value,
not the empty string. -/
theorem default_platform_not_empty :
    dispatchMode overrideNoArgWorld.argv2 = Mode.localDefault ∧
    (run overrideNoArgWorld).config.platform = "linux/amd64" ∧
    ("linux/amd64" : String) ≠ "" := by
  refine ⟨by decide, by decide, by decide⟩

/-- Claim C10 as amended: on the local/default dispatch path (no mode
argument), no container command of any kind is executed, the platform field
keeps its initial override-derived value (empty exactly when the override
supplies nothing), and no pipeline step reads it: the trace and outcome are
independent of the override. -/
theorem default_path_no_docker (w : World) (h : w.argv2 = none) :
    (∀ e ∈ (run w).events, isDockerEvent e = false) ∧
    (run w).config.platform = w.wasmPlatform.getD "" ∧
    ∀ p : Option String,
      (run { w with wasmPlatform := p }).events =
          (run { w with wasmPlatform := none }).events ∧
      (run { w with wasmPlatform := p }).outcome =
          (run { w with wasmPlatform := none }).outcome := by
  have hskip : ((mkConfig w).platform == "" && jsTruthy w.argv2) = false := by
    simp [jsTruthy, h]
  have hmode : dispatchMode w.argv2 = Mode.localDefault := by
    simp [dispatchMode, h]
  have hrun := run_default hmode hskip
  refine ⟨?_, ?_, ?_⟩
  · intro e he
    rw [hrun] at he
    exact defaultCase_no_docker w (mkConfig w) e he
  · rw [hrun]
    rfl
  · intro p
    have key : ∀ q : Option String,
        defaultCase { w with wasmPlatform := q } (mkConfig { w with wasmPlatform := q }) =
          defaultCase w { mkConfig w with platform := "" } := fun q => rfl
    have hmode1 : dispatchMode ({ w with wasmPlatform := p } : World).argv2 = Mode.localDefault := hmode
    have hmode0 : dispatchMode ({ w with wasmPlatform := none } : World).argv2 = Mode.localDefault := hmode
    have hskip1 : ((mkConfig { w with wasmPlatform := p }).platform == "" &&
        jsTruthy ({ w with wasmPlatform := p } : World).argv2) = false := by
      simp [jsTruthy, h]
    have hskip0 : ((mkConfig { w with wasmPlatform := none }).platform == "" &&
        jsTruthy ({ w with wasmPlatform := none } : World).argv2) = false := by
      simp [jsTruthy, h]
    constructor
    · rw [run_default hmode1 hskip1, run_default hmode0 hskip0]
      show (defaultCase _ _).1 = (defaultCase _ _).1
      rw [key p, key none]
    · rw [run_default hmode1 hskip1, run_default hmode0 hskip0]
      show (match (defaultCase _ _).2 with
          | none => Outcome.completed
          | some e => Outcome.fatal e) =
        (match (defaultCase _ _).2 with
          | none => Outcome.completed
          | some e => Outcome.fatal e)
      rw [key p, key none]

/-- Witness for the amended claim C10 at a concrete world: with no override
and no argument, the pipeline runs with an empty platform field. -/
theorem default_path_no_docker_witness :
    (run okWorld).config.platform = "" :=
  (default_path_no_docker okWorld rfl).2.1

/-- A run whose resolution step failed dies with that error at once. -/
theorem run_resolve_err {w : World} {cfg : BuildConfig} {evs0 : List Event} {e : JsError}
    (hres : resolvePlatform w (mkConfig w) = (cfg, evs0, some e)) :
    run w = ⟨.fatal e, evs0, cfg⟩ := by
  unfold run
  rw [hres]

/-- Characterization of a local/default run in terms of the resolved
configuration, covering runs whose resolution step queried the runtime. -/
theorem run_local_of_resolved {w : World} {cfg : BuildConfig} {evs0 : List Event}
    (hres : resolvePlatform w (mkConfig w) = (cfg, evs0, none))
    (hmode : dispatchMode w.argv2 = Mode.localDefault) :
    run w =
      ⟨(match (defaultCase w cfg).2 with
          | none => Outcome.completed
          | some e => Outcome.fatal e),
        evs0 ++ (defaultCase w cfg).1, cfg⟩ := by
  unfold run
  rw [hres, hmode]
  rcases hD : defaultCase w cfg with ⟨evs, e?⟩
  cases e? <;> simp [hD]

/-- Claim C4 counterexample: with no platform override, invoking with the
unrecognized argument --bogus performs the container-runtime info query that
the argument-less invocation never performs: the external-operation traces
are not the same. -/
theorem unrecognized_arg_trace_differs :
    (run { okWorld with argv2 := some "--bogus" }).events.head? =
        some Event.queryDockerInfo ∧
    (run okWorld).events ≠ (run { okWorld with argv2 := some "--bogus" }).events := by
  refine ⟨by decide, by decide⟩

/-- Claim C4 as amended: an unrecognized non-empty mode argument selects the
local pipeline exactly as an omitted argument does, and the pipeline performs
the same operations with the same outcome; the two invocations differ only in
platform resolution: when the override supplies a platform the whole runs are
identical, and otherwise the unrecognized-argument run first performs the
container-runtime info query (and dies with its error if it fails). -/
theorem unrecognized_arg_falls_through (w : World) (s : String)
    (hs1 : s ≠ "--prebuild") (hs2 : s ≠ "--setup") (hs3 : s ≠ "--docker")
    (hs0 : s ≠ "") :
    ((mkConfig w).platform ≠ "" →
      run { w with argv2 := some s } = run { w with argv2 := none }) ∧
    ((mkConfig w).platform = "" →
      (∀ out, w.dockerInfo = ExecResult.ok out →
        (run { w with argv2 := some s }).events =
            Event.queryDockerInfo :: (run { w with argv2 := none }).events ∧
        (run { w with argv2 := some s }).outcome =
            (run { w with argv2 := none }).outcome) ∧
      (∀ st, w.dockerInfo = ExecResult.err st →
        (run { w with argv2 := some s }).outcome =
            Outcome.fatal (JsError.subprocess st) ∧
        (run { w with argv2 := some s }).events = [Event.queryDockerInfo])) := by
  have hmode1 : dispatchMode ({ w with argv2 := some s } : World).argv2 = Mode.localDefault := by
    simp [dispatchMode, hs1, hs2, hs3]
  have hmode0 : dispatchMode ({ w with argv2 := none } : World).argv2 = Mode.localDefault := by
    simp [dispatchMode]
  have hskip0 : ((mkConfig { w with argv2 := none }).platform == "" &&
      jsTruthy ({ w with argv2 := none } : World).argv2) = false := by
    simp [jsTruthy]
  constructor
  · intro hP
    have hb : ((mkConfig w).platform == "") = false := beq_eq_false_iff_ne.mpr hP
    have hskip1 : ((mkConfig { w with argv2 := some s }).platform == "" &&
        jsTruthy ({ w with argv2 := some s } : World).argv2) = false := by
      simp only [Bool.and_eq_false_iff]
      exact Or.inl hb
    rw [run_default hmode1 hskip1, run_default hmode0 hskip0]
    rfl
  · intro hP
    have hsne : (s == "") = false := beq_eq_false_iff_ne.mpr hs0
    have hg1 : ((mkConfig { w with argv2 := some s }).platform == "" &&
        jsTruthy ({ w with argv2 := some s } : World).argv2) = true := by
      simp only [Bool.and_eq_true, beq_iff_eq, jsTruthy, bne, Bool.not_eq_true']
      exact ⟨hP, hsne⟩
    constructor
    · intro out ho
      have hres1 := resolvePlatform_taken_ok hg1
        (show ({ w with argv2 := some s } : World).dockerInfo = .ok out from ho)
      have h1 := run_local_of_resolved hres1 hmode1
      have h0 := run_default hmode0 hskip0
      have hDC : defaultCase { w with argv2 := some s }
            { mkConfig { w with argv2 := some s } with platform := out.trim } =
          defaultCase { w with argv2 := none } (mkConfig { w with argv2 := none }) := rfl
      constructor
      · rw [h1, h0]
        show Event.queryDockerInfo :: (defaultCase _ _).1 = _
        rw [hDC]
      · rw [h1, h0]
        show (match (defaultCase _ _).2 with
            | none => Outcome.completed
            | some e => Outcome.fatal e) = _
        rw [hDC]
    · intro st he
      have hres1 := resolvePlatform_taken_err hg1
        (show ({ w with argv2 := some s } : World).dockerInfo = .err st from he)
      have h1 := run_resolve_err hres1
      rw [h1]
      exact ⟨rfl, rfl⟩

/-- Witness for the amended claim C4 at a concrete world: with the override
set, a --bogus argument produces the identical run to no argument at all. -/
theorem unrecognized_arg_falls_through_witness :
    run { overrideNoArgWorld with argv2 := some "--bogus" } =
      run { overrideNoArgWorld with argv2 := none } :=
  (unrecognized_arg_falls_through overrideNoArgWorld "--bogus"
    (by decide) (by decide) (by decide) (by decide)).1 (by decide)

/-- Modelled from the Node.js runtime, which is not part of this repository:
the exit status the operating system observes for each way the script can
end.  An explicit process.exit(n) exits with n, falling off the end of the
script exits with 0, and an uncaught thrown error terminates the process
with the generic uncaught-exception exit code 1, regardless of any status
the error value carries. -/
def processExitCode : Outcome → Nat
  | .exited n => n
  | .completed => 0
  | .fatal _ => 1

/-- Characterization of an image-mode run in terms of the resolved
configuration, covering runs whose resolution step queried the runtime. -/
theorem run_prebuild_of_resolved {w : World} {cfg : BuildConfig} {evs0 : List Event}
    (hres : resolvePlatform w (mkConfig w) = (cfg, evs0, none))
    (hmode : dispatchMode w.argv2 = Mode.prebuild) :
    run w =
      ⟨(match w.execResult (dockerBuildCmd cfg.platform) with
          | .ok _ => Outcome.exited 0
          | .err s => Outcome.fatal (.subprocess s)),
        evs0 ++
          [Event.log ("> " ++
              String.intercalate " " (dockerBuildCmd cfg.platform) ++ "\n"),
            Event.execCmd (dockerBuildCmd cfg.platform) none],
        cfg⟩ := by
  unfold run
  rw [hres, hmode]
  cases hE : w.execResult (dockerBuildCmd cfg.platform) <;> simp [hE]

/-- Characterization of a containerized-mode run in terms of the resolved
configuration, covering runs whose resolution step queried the runtime. -/
theorem run_docker_of_resolved {w : World} {cfg : BuildConfig} {evs0 : List Event}
    (hres : resolvePlatform w (mkConfig w) = (cfg, evs0, none))
    (hmode : dispatchMode w.argv2 = Mode.docker) :
    run w =
      ⟨(match (runDockerBuild w cfg.platform cfg.wasmSrc).2 with
          | none => Outcome.exited 0
          | some e => Outcome.fatal e),
        evs0 ++ (runDockerBuild w cfg.platform cfg.wasmSrc).1,
        cfg⟩ := by
  unfold run
  rw [hres, hmode]
  rcases hR : runDockerBuild w cfg.platform cfg.wasmSrc with ⟨evs2, e2?⟩
  cases e2? <;> simp [hR]

/-- A world in which the image build fails with docker exit status 125. -/
def prebuildFailWorld : World :=
  { okWorld with
    wasmPlatform := some "linux/amd64"
    argv2 := some "--prebuild"
    execResult := fun _ => .err 125 }

/-- Claim C5 counterexample: when the image build subprocess exits with
status 125, its execSync error propagates uncaught and the orchestrator
process terminates with the generic uncaught-exception exit code 1, not
with the inherited subprocess code 125. -/
theorem subprocess_exit_code_not_inherited :
    (run prebuildFailWorld).outcome = Outcome.fatal (JsError.subprocess 125) ∧
    processExitCode (run prebuildFailWorld).outcome = 1 ∧
    processExitCode (run prebuildFailWorld).outcome ≠ 125 := by
  refine ⟨by decide, by decide, by decide⟩

/-- Claim C5 as amended: for every run whose platform resolution succeeded
(whether the platform came from the override or from the runtime query), a
successful subprocess makes image and containerized mode exit 0; a non-zero
subprocess exit makes the execSync error carrying that status propagate
uncaught, so the orchestrator terminates with the generic uncaught-exception
exit code 1 — a non-zero status, but not the subprocess's own code. -/
theorem subprocess_exit_code_generic (w : World) (cfg : BuildConfig)
    (evs0 : List Event)
    (hres : resolvePlatform w (mkConfig w) = (cfg, evs0, none)) :
    (w.argv2 = some "--prebuild" →
      (∀ out, w.execResult (dockerBuildCmd cfg.platform) = .ok out →
        (run w).outcome = Outcome.exited 0 ∧
        processExitCode (run w).outcome = 0) ∧
      (∀ st, w.execResult (dockerBuildCmd cfg.platform) = .err st →
        (run w).outcome = Outcome.fatal (JsError.subprocess st) ∧
        processExitCode (run w).outcome = 1)) ∧
    (w.argv2 = some "--docker" →
      (∀ out, w.execResult (dockerRunParts w cfg.platform cfg.wasmSrc) = .ok out →
        (run w).outcome = Outcome.exited 0 ∧
        processExitCode (run w).outcome = 0) ∧
      (∀ st, w.execResult (dockerRunParts w cfg.platform cfg.wasmSrc) = .err st →
        (run w).outcome = Outcome.fatal (JsError.subprocess st) ∧
        processExitCode (run w).outcome = 1)) := by
  constructor
  · intro ha
    have hmode : dispatchMode w.argv2 = Mode.prebuild := by simp [dispatchMode, ha]
    have hr := run_prebuild_of_resolved hres hmode
    constructor
    · intro out hE
      rw [hr]
      simp [hE, processExitCode]
    · intro st hE
      rw [hr]
      simp [hE, processExitCode]
  · intro ha
    have hmode : dispatchMode w.argv2 = Mode.docker := by simp [dispatchMode, ha]
    have hr := run_docker_of_resolved hres hmode
    constructor
    · intro out hE
      rw [hr]
      unfold runDockerBuild execStep
      simp [hE, processExitCode]
    · intro st hE
      rw [hr]
      unfold runDockerBuild execStep
      simp [hE, processExitCode]

/-- Witness for the amended claim C5 at a concrete world: the failing image
build of status 125 ends the run as an uncaught subprocess error, observed
as the generic exit code 1. -/
theorem subprocess_exit_code_generic_witness :
    (run prebuildFailWorld).outcome = Outcome.fatal (JsError.subprocess 125) ∧
    processExitCode (run prebuildFailWorld).outcome = 1 :=
  ((subprocess_exit_code_generic prebuildFailWorld (mkConfig prebuildFailWorld)
    [] rfl).1 rfl).2 125 rfl

/-- A world on a macOS host, a POSIX system that is not Linux. -/
def darwinWorld : World :=
  { okWorld with
    hostPlatform := "darwin"
    wasmPlatform := some "linux/amd64"
    argv2 := some "--docker" }

/-- Claim C6 counterexample: on a macOS host (a POSIX system), the container
is run with the fixed fallback pair 1000:1000 and not with the invoking
user's identifiers 501:20, because the code tests for Linux, not POSIX. -/
theorem docker_user_darwin_fallback :
    isPosixPlatform "darwin" = true ∧
    darwinWorld.uid = 501 ∧
    darwinWorld.egid = 20 ∧
    dockerRunUid darwinWorld = 1000 ∧
    dockerRunGid darwinWorld = 1000 ∧
    "1000:1000" ∈ dockerRunParts darwinWorld "linux/amd64" "/r" ∧
    dockerRunUid darwinWorld ≠ darwinWorld.uid := by
  decide

/-- Claim C6 as amended: the container is run with the invoking user's
numeric uid and effective gid exactly on Linux hosts, and with the fixed
fallback pair 1000:1000 on every other host, non-Linux POSIX hosts
included; the chosen pair appears as the --user value of the command. -/
theorem docker_user_mapping (w : World) (platform wasmSrc : String) :
    (w.hostPlatform = "linux" → dockerRunUid w = w.uid ∧ dockerRunGid w = w.egid) ∧
    (w.hostPlatform ≠ "linux" → dockerRunUid w = 1000 ∧ dockerRunGid w = 1000) ∧
    "--user" ∈ dockerRunParts w platform wasmSrc ∧
    (toString (dockerRunUid w) ++ ":" ++ toString (dockerRunGid w)) ∈
      dockerRunParts w platform wasmSrc := by
  refine ⟨?_, ?_, ?_, ?_⟩
  · intro h
    simp [dockerRunUid, dockerRunGid, h]
  · intro h
    simp [dockerRunUid, dockerRunGid, h]
  · unfold dockerRunParts
    repeat first | exact List.Mem.head _ | apply List.Mem.tail
  · unfold dockerRunParts
    repeat first | exact List.Mem.head _ | apply List.Mem.tail

/-- Claim C8: the module-level config object is never modified after the
resolution guard finishes — the dispatched mode leaves it untouched — and
resolution itself can only rewrite the platform field: source root, output
root and toolchain flags keep their constructed values in every mode. -/
theorem config_immutable_after_resolution (w : World) :
    (run w).config = (resolvePlatform w (mkConfig w)).1 ∧
    (resolvePlatform w (mkConfig w)).1.wasmOut = (mkConfig w).wasmOut ∧
    (resolvePlatform w (mkConfig w)).1.wasmSrc = (mkConfig w).wasmSrc ∧
    (resolvePlatform w (mkConfig w)).1.emflags = (mkConfig w).emflags := by
  refine ⟨?_, ?_, ?_, ?_⟩
  · unfold run
    rcases hR : resolvePlatform w (mkConfig w) with ⟨cfg, evs, e?⟩
    cases e? with
    | some e => simp [hR]
    | none =>
      cases hm : dispatchMode w.argv2
      case prebuild =>
        cases hE : w.execResult (dockerBuildCmd cfg.platform) <;> simp [hR, hm, hE]
      case setup =>
        rcases hS : setupCase w cfg with ⟨o, evs2⟩
        simp [hR, hm, hS]
      case docker =>
        rcases hD : runDockerBuild w cfg.platform cfg.wasmSrc with ⟨evs2, e2?⟩
        cases e2? <;> simp [hR, hm, hD]
      case localDefault =>
        rcases hD : defaultCase w cfg with ⟨evs2, e2?⟩
        cases e2? <;> simp [hR, hm, hD]
  all_goals
    unfold resolvePlatform
    split
    · cases hd : w.dockerInfo <;> simp [hd]
    · rfl

/-- A failed sequencing step's error comes from one of its two parts. -/
theorem andThen_err {r : List Event × Option JsError}
    {k : Unit → List Event × Option JsError} {e : JsError}
    (h : (andThen r k).2 = some e) :
    r.2 = some e ∨ (r.2 = none ∧ (k ()).2 = some e) := by
  rcases r with ⟨evs, e?⟩
  cases e? with
  | none =>
    unfold andThen at h
    exact Or.inr ⟨rfl, h⟩
  | some x =>
    unfold andThen at h
    exact Or.inl h

/-- A failed copy step surfaces exactly the copy oracle's error. -/
theorem copyOne_err {w : World} {cfg : BuildConfig} {n : String} {e : JsError}
    (h : (copyOne w cfg n).2 = some e) :
    w.copyError (join (assetSrcDir cfg) n) (join cfg.wasmOut n) = some e := by
  unfold copyOne at h
  split at h
  · exact absurd h (by simp)
  · rename_i e' heq
    simp only at h
    rw [heq, h]

/-- A failure of the copy loop surfaces the error of one of its files. -/
theorem copyAll_err {w : World} {cfg : BuildConfig} :
    ∀ {ns : List String} {e : JsError}, (copyAll w cfg ns).2 = some e →
      ∃ n ∈ ns, w.copyError (join (assetSrcDir cfg) n) (join cfg.wasmOut n) = some e := by
  intro ns
  induction ns with
  | nil =>
    intro e h
    simp [copyAll] at h
  | cons n ns ih =>
    intro e h
    unfold copyAll at h
    rcases andThen_err h with h1 | ⟨_, h2⟩
    · exact ⟨n, List.mem_cons_self n ns, copyOne_err h1⟩
    · rcases ih h2 with ⟨m, hm, he⟩
      exact ⟨m, List.mem_cons_of_mem n hm, he⟩

/-- A sequenced step that reports no error had no error in either part. -/
theorem andThen_ok {r : List Event × Option JsError}
    {k : Unit → List Event × Option JsError}
    (h : (andThen r k).2 = none) : r.2 = none ∧ (k ()).2 = none := by
  rcases r with ⟨evs, e?⟩
  cases e? with
  | none =>
    unfold andThen at h
    exact ⟨rfl, h⟩
  | some x =>
    unfold andThen at h
    exact absurd h (by simp)

/-- A copy step that reports no error had a successful copy oracle. -/
theorem copyOne_ok {w : World} {cfg : BuildConfig} {n : String}
    (h : (copyOne w cfg n).2 = none) :
    w.copyError (join (assetSrcDir cfg) n) (join cfg.wasmOut n) = none := by
  unfold copyOne at h
  split at h
  · rename_i heq
    exact heq
  · exact absurd h (by simp)

/-- A copy loop that reports no error copied every one of its files. -/
theorem copyAll_ok {w : World} {cfg : BuildConfig} :
    ∀ {ns : List String}, (copyAll w cfg ns).2 = none →
      ∀ n ∈ ns, w.copyError (join (assetSrcDir cfg) n) (join cfg.wasmOut n) = none := by
  intro ns
  induction ns with
  | nil =>
    intro _ n hn
    exact absurd hn (List.not_mem_nil n)
  | cons m ns ih =>
    intro h n hn
    unfold copyAll at h
    obtain ⟨h1, h2⟩ := andThen_ok h
    rcases List.mem_cons.mp hn with hEq | hn'
    · rw [hEq]
      exact copyOne_ok h1
    · exact ih h2 n hn'

/-- Claim C9: under the oracle outcomes in which every copy and the write
succeed, the asset assembler performs exactly the six companion-file copies,
source order, filenames preserved, followed by exactly one descriptor write
whose content is the JSON object with the single module-type field; any
failure it reports is the surfaced error of one of those seven operations;
it reports success only when all seven succeeded; and a failing companion
copy makes the whole step fail. -/
theorem copy_assets_contract (w : World) (cfg : BuildConfig) :
    ((∀ n ∈ companionFiles,
        w.copyError (join (assetSrcDir cfg) n) (join cfg.wasmOut n) = none) →
      w.writeError (join cfg.wasmOut "package.json") = none →
      copyAssets w cfg =
        ((companionFiles.map fun n =>
            Event.copyFile (join (assetSrcDir cfg) n) (join cfg.wasmOut n)) ++
          [Event.writeFile (join cfg.wasmOut "package.json") packageJsonContent],
          none)) ∧
    companionFiles.length = 6 ∧
    packageJsonContent = "\x7b\n  \"type\": \"commonjs\"\n\x7d" ∧
    (∀ e, (copyAssets w cfg).2 = some e →
      (∃ n ∈ companionFiles,
        w.copyError (join (assetSrcDir cfg) n) (join cfg.wasmOut n) = some e) ∨
      w.writeError (join cfg.wasmOut "package.json") = some e) ∧
    ((copyAssets w cfg).2 = none →
      (∀ n ∈ companionFiles,
        w.copyError (join (assetSrcDir cfg) n) (join cfg.wasmOut n) = none) ∧
      w.writeError (join cfg.wasmOut "package.json") = none) ∧
    ∀ n ∈ companionFiles, ∀ e,
      w.copyError (join (assetSrcDir cfg) n) (join cfg.wasmOut n) = some e →
      (copyAssets w cfg).2 ≠ none := by
  have hcomplete : (copyAssets w cfg).2 = none →
      (∀ n ∈ companionFiles,
        w.copyError (join (assetSrcDir cfg) n) (join cfg.wasmOut n) = none) ∧
      w.writeError (join cfg.wasmOut "package.json") = none := by
    intro hnone
    unfold copyAssets at hnone
    obtain ⟨h1, h2⟩ := andThen_ok hnone
    refine ⟨copyAll_ok h1, ?_⟩
    split at h2
    · rename_i heq
      exact heq
    · exact absurd h2 (by simp)
  refine ⟨?_, by decide, rfl, ?_, hcomplete, ?_⟩
  · intro hc hw
    have h1 := hc "constants.js" (by decide)
    have h2 := hc "constants.js.map" (by decide)
    have h3 := hc "constants.d.ts" (by decide)
    have h4 := hc "utils.js" (by decide)
    have h5 := hc "utils.js.map" (by decide)
    have h6 := hc "utils.d.ts" (by decide)
    simp [copyAssets, companionFiles, copyAll, copyOne, andThen,
      h1, h2, h3, h4, h5, h6, hw]
  · intro e he
    unfold copyAssets at he
    rcases andThen_err he with h1 | ⟨_, h2⟩
    · exact Or.inl (copyAll_err h1)
    · right
      split at h2
      · exact absurd h2 (by simp)
      · rename_i e' heq
        simp only at h2
        rw [heq, h2]
  · intro n hn e he hnone
    have := (hcomplete hnone).1 n hn
    rw [he] at this
    exact Option.noConfusion this

end BuildWasm
